import Mathlib

/-!
Shallow embedding of the offline-first request cache and sync engine of the
time-tracker PWA, covering:

* the service worker `public/sw.js` (request classification, cache-first and
  network-first-with-fallback strategies, the offline response synthesizer,
  and the background-sync drain over the IndexedDB pending stores);
* the mobile API client and clock manager in `public/js/mobile-core.js`
  (in-memory TTL cache, cache keys, offline enqueue on clock-in/out failure);
* the legacy offline queue in `public/js/main.js` (`optimizedAjax` cache keys,
  `storeOfflineAction` / `syncOfflineActions` over `localStorage`);
* the app-level drain `MobileTimeTrackerApp.syncOfflineData` in
  `public/js/mobile-app.js` (guarded by the `syncInProgress` flag).

Machine integers do not occur on the paths modelled here; timestamps are `Nat`
milliseconds.  Fallible operations are modelled with `Except` / `Option`, and
the asynchronous drains are modelled by explicit state passing: a drain
invocation is a function from the state it observes to the state it leaves
plus the trace of network replays it performs.
-/

/-! ### String helpers

JavaScript `String.prototype.endsWith` / `startsWith` / `includes` on the
character-sequence level. -/

/-- JS `s.endsWith(pat)`: `pat` is a suffix of `s`. -/
def strEndsWith (s pat : String) : Bool := pat.toList.isSuffixOf s.toList

/-- JS `s.startsWith(pat)`: `pat` is a prefix of `s`. -/
def strStartsWith (s pat : String) : Bool := pat.toList.isPrefixOf s.toList

/-- Helper for `strIncludes`: does `pat` occur starting at some position of the list? -/
def includesFrom (pat : List Char) : List Char → Bool
  | [] => pat.isEmpty
  | c :: rest => pat.isPrefixOf (c :: rest) || includesFrom pat rest

/-- JS `s.includes(pat)`: `pat` occurs as a contiguous substring of `s`. -/
def strIncludes (s pat : String) : Bool := includesFrom pat.toList s.toList

/-! ### JSON bodies -/

/-- JSON values, used for request payloads and response bodies. -/
inductive Json where
  | null
  | jbool (b : Bool)
  | num (n : Int)
  | str (s : String)
  | arr (elems : List Json)
  | obj (fields : List (String × Json))

/-- Field lookup on a JSON object (`none` on non-objects and absent keys). -/
def Json.field : Json → String → Option Json
  | .obj fs, k => (fs.find? (fun p => p.1 == k)).map (·.2)
  | _, _ => none

/-- Boolean-valued field of a JSON object, if present. -/
def Json.boolField (j : Json) (k : String) : Option Bool :=
  match j.field k with
  | some (.jbool b) => some b
  | _ => none

/-- String-valued field of a JSON object, if present. -/
def Json.strField (j : Json) (k : String) : Option String :=
  match j.field k with
  | some (.str s) => some s
  | _ => none

/-- Array-valued field of a JSON object, if present. -/
def Json.arrField (j : Json) (k : String) : Option (List Json) :=
  match j.field k with
  | some (.arr xs) => some xs
  | _ => none

/-! ### Service worker (`public/sw.js`): responses and constants -/

/-- A `Response` as observed by the service worker: transport status, status
text, headers and a JSON body. -/
structure SWResponse where
  status : Nat
  statusText : String
  headers : List (String × String)
  body : Json

/-- JS `Response.ok`: status in the inclusive-exclusive range 200..300. -/
def SWResponse.ok (r : SWResponse) : Bool := 200 ≤ r.status && r.status < 300

/-- `Headers.get`: the value bound to a header name, if any. -/
def headersGet (hs : List (String × String)) (k : String) : Option String :=
  (hs.find? (fun p => p.1 == k)).map (·.2)

/-- `Headers.set`: replace any existing binding of `k` by `v`.  Binding order
is irrelevant to `headersGet`, so the fresh binding is put in front. -/
def headersSet (hs : List (String × String)) (k v : String) : List (String × String) :=
  (k, v) :: hs.filter (fun p => p.1 ≠ k)

/-- The static-asset suffix list of `isStaticResource` in `sw.js`. -/
def STATIC_EXTENSIONS : List String :=
  [".css", ".js", ".png", ".jpg", ".jpeg", ".gif", ".svg", ".ico", ".woff", ".woff2"]

/-- `CACHEABLE_APIS` from `sw.js`: path prefixes of API reads eligible for the
API cache. -/
def CACHEABLE_APIS : List String :=
  ["/api/mobile/employees", "/api/mobile/dashboard", "/api/getLiffId",
   "/api/getTimeOffset", "/api/getdata", "/api/getemployee"]

/-- The Thai no-connectivity message used by the offline synthesizer. -/
def NO_NET_MSG : String := "ไม่มีการเชื่อมต่ออินเทอร์เน็ต"

/-- The hardcoded LIFF id returned by the offline synthesizer for `/getLiffId`. -/
def OFFLINE_LIFF_ID : String := "2001032478-VR5Akj0k"

/-- `isStaticResource` from `sw.js`: a static suffix, the root path, or an
`.html` path. -/
def isStaticResource (pathname : String) : Bool :=
  STATIC_EXTENSIONS.any (fun ext => strEndsWith pathname ext)
    || pathname == "/" || strEndsWith pathname ".html"

/-- `isCacheableAPI` from `sw.js`: the path starts with one of `CACHEABLE_APIS`. -/
def isCacheableAPI (pathname : String) : Bool :=
  CACHEABLE_APIS.any (fun api => strStartsWith pathname api)

/-! ### Request classification (`fetch` listener + `handleRequest`) -/

/-- An intercepted request descriptor: whether its origin equals the page
origin, its method, and its URL path. -/
structure SWRequest where
  sameOrigin : Bool
  method : String
  pathname : String

/-- The resolution strategies a request can be dispatched to. -/
inductive Strategy where
  | passthrough
  | cacheFirstS
  | networkFirstWithFallbackS
  | networkFirstS
  | networkOnlyS
deriving DecidableEq, Repr

/-- The strategy dispatch of `handleRequest` in `sw.js`, in source order:
static resources are cache-first, `/api/` paths are
network-first-with-fallback, `.html` pages and the root are network-first,
everything else goes straight to the network. -/
def handleRequestStrategy (pathname : String) : Strategy :=
  if isStaticResource pathname then .cacheFirstS
  else if strStartsWith pathname "/api/" then .networkFirstWithFallbackS
  else if strEndsWith pathname ".html" || pathname == "/" then .networkFirstS
  else .networkOnlyS

/-- The full classification performed by the `fetch` event listener in
`sw.js`: cross-origin and non-GET requests are not intercepted at all
(passthrough); same-origin GET requests are handed to `handleRequest`. -/
def fetchClassify (r : SWRequest) : Strategy :=
  if !r.sameOrigin then .passthrough
  else if r.method ≠ "GET" then .passthrough
  else handleRequestStrategy r.pathname

/-- Modelled from the spec (section 4.1): the static-asset test, written from
the spec words "fixed list of path suffixes: stylesheets, scripts, images,
fonts, markup, or the root path".  Used only to compare the spec's
classification order with the code's. -/
def specStaticAsset (pathname : String) : Bool :=
  ([".css", ".js", ".png", ".jpg", ".jpeg", ".gif", ".svg", ".ico",
    ".woff", ".woff2", ".html"].any (fun ext => strEndsWith pathname ext))
    || pathname == "/"

/-- Modelled from the spec (section 4.1): the classification rule evaluated in
the spec's fixed order — cross-origin passthrough, non-read passthrough,
static-suffix-or-root cache-first, API-namespace network-first-with-fallback,
HTML-document network-first, otherwise direct network. -/
def specClassify (r : SWRequest) : Strategy :=
  if !r.sameOrigin then .passthrough
  else if r.method ≠ "GET" then .passthrough
  else if specStaticAsset r.pathname then .cacheFirstS
  else if strStartsWith r.pathname "/api/" then .networkFirstWithFallbackS
  else if strEndsWith r.pathname ".html" || r.pathname == "/" then .networkFirstS
  else .networkOnlyS

/-! ### Offline response synthesizer (`createOfflineAPIResponse`) -/

/-- `createOfflineAPIResponse` from `sw.js`.  `todayStr` stands for
`new Date().toLocaleDateString('th-TH')`, which the dashboard body embeds.
The body is selected by substring tests on the path, in source order
(`/employees`, `/dashboard`, `/getLiffId`, generic); the response is always
status 200 with JSON content type and an `X-Served-By` marker. -/
def createOfflineAPIResponse (todayStr pathname : String) : SWResponse :=
  let offlineData : Json :=
    if strIncludes pathname "/employees" then
      .obj [("success", .jbool false), ("msg", .str NO_NET_MSG),
            ("offline", .jbool true), ("employees", .arr [])]
    else if strIncludes pathname "/dashboard" then
      .obj [("success", .jbool false), ("msg", .str NO_NET_MSG),
            ("offline", .jbool true),
            ("today", .obj [("total_employees", .num 0), ("checked_in", .num 0),
                            ("not_checked_out", .num 0), ("date", .str todayStr)])]
    else if strIncludes pathname "/getLiffId" then
      .obj [("success", .jbool true), ("liffId", .str OFFLINE_LIFF_ID)]
    else
      .obj [("success", .jbool false), ("msg", .str NO_NET_MSG)]
  { status := 200
    statusText := ""
    headers := [("Content-Type", "application/json"), ("X-Served-By", "ServiceWorker-Offline")]
    body := offlineData }

/-! ### Cache-first strategy (`cacheFirst`) -/

/-- Outcome of one `cacheFirst` invocation: the response (or the propagated
network error), whether `fetch` was called, and what (if anything) was put
into the cache. -/
structure FetchTrace where
  resp : Except Unit SWResponse
  networkCalled : Bool
  cachePut : Option SWResponse

/-- `cacheFirst` from `sw.js`: on a cache hit return the cached response with
no network call; on a miss fetch, cache a clone only when the response is ok,
and return the live response; a thrown fetch error propagates. -/
def cacheFirst (cached : Option SWResponse) (net : Except Unit SWResponse) : FetchTrace :=
  match cached with
  | some c => { resp := .ok c, networkCalled := false, cachePut := none }
  | none =>
    match net with
    | .error e => { resp := .error e, networkCalled := true, cachePut := none }
    | .ok r =>
      { resp := .ok r, networkCalled := true
        cachePut := if r.ok then some r else none }

/-! ### Network-first with fallback (`networkFirstWithFallback`) -/

/-- The network attempt as it looks to the service worker: either a response
arrived, or `fetch` threw a transport error. -/
inductive NetOutcome where
  | resp (r : SWResponse)
  | netError

/-- The catch-branch of `networkFirstWithFallback`: on a cache hit, rebuild
the cached response with `X-Served-By` and `X-Cache-Date` headers set; on a
miss, delegate to the offline synthesizer. -/
def apiFallback (todayStr pathname : String) (cached : Option SWResponse) : SWResponse :=
  match cached with
  | some c =>
    let hs := headersSet c.headers "X-Served-By" "ServiceWorker"
    let hs := headersSet hs "X-Cache-Date" ((headersGet c.headers "date").getD "unknown")
    { status := c.status, statusText := c.statusText, headers := hs, body := c.body }
  | none => createOfflineAPIResponse todayStr pathname

/-- `networkFirstWithFallback` from `sw.js`.  Returns the response handed to
the client and the response put into the API cache, if any.  A non-ok status
is thrown and handled exactly like a transport error (both reach the catch
branch). -/
def networkFirstWithFallback (todayStr pathname : String) (net : NetOutcome)
    (cached : Option SWResponse) : SWResponse × Option SWResponse :=
  match net with
  | .resp r =>
    if r.ok then (r, if isCacheableAPI pathname then some r else none)
    else (apiFallback todayStr pathname cached, none)
  | .netError => (apiFallback todayStr pathname cached, none)

/-- Does the network attempt count as failed for `networkFirstWithFallback`
(transport error, or a reachable server answering with a non-ok status)? -/
def netFailed : NetOutcome → Bool
  | .resp r => !r.ok
  | .netError => true

/-! ### Background-sync drains in the service worker
(`syncClockInData` / `syncClockOutData`) -/

/-- One record of the IndexedDB stores `pendingClockIns` / `pendingClockOuts`:
an auto-assigned key and the original request payload. -/
structure PendingRecord where
  id : Nat
  data : Json

/-- What one replay `fetch` of a queued record produced: a response with the
given `ok` flag, or a thrown transport error. -/
inductive ReplayResult where
  | resp (ok : Bool)
  | threw
deriving DecidableEq, Repr

/-- Did the replay return a success (`response.ok`) response? -/
def ReplayResult.succeeded : ReplayResult → Bool
  | .resp ok => ok
  | .threw => false

/-- The drain loop shared by `syncClockInData` and `syncClockOutData` in
`sw.js`, run over the `getAll` snapshot of the store.  For each record in
stored order it replays the payload (`net` gives that replay's outcome);
a record is deleted from the store exactly when its replay response is ok,
and a failed replay (thrown, or non-ok response) is caught by the per-record
handler and the loop continues.  Returns the records still in the store after
the pass and the ids replayed, in replay order. -/
def swDrainPass (net : PendingRecord → ReplayResult) :
    List PendingRecord → List PendingRecord × List Nat
  | [] => ([], [])
  | rec :: rest =>
    let (remaining, replayed) := swDrainPass net rest
    if (net rec).succeeded then (remaining, rec.id :: replayed)
    else (rec :: remaining, rec.id :: replayed)

/-- `syncClockInData`: drain the `pendingClockIns` store, replaying each
payload against `POST /api/clockin`. -/
def syncClockInData (net : PendingRecord → ReplayResult)
    (pendingClockIns : List PendingRecord) : List PendingRecord × List Nat :=
  swDrainPass net pendingClockIns

/-- `syncClockOutData`: drain the `pendingClockOuts` store, replaying each
payload against `POST /api/clockout`. -/
def syncClockOutData (net : PendingRecord → ReplayResult)
    (pendingClockOuts : List PendingRecord) : List PendingRecord × List Nat :=
  swDrainPass net pendingClockOuts

/-! ### Clock manager (`public/js/mobile-core.js`, `ClockManager`) -/

/-- A parsed body returned by `this.api.call` for clock-in/out. -/
structure ApiCallResponse where
  success : Bool
  time : String
  msg : String

/-- A thrown JavaScript error. -/
inductive JsError where
  | referenceError (name : String)
  | connectionError (msg : String)
deriving DecidableEq, Repr

/-- The caller-visible result object built by `ClockManager.clockIn` /
`clockOut`. -/
structure ClockResult where
  success : Bool
  message : String
  offline : Bool
deriving DecidableEq, Repr

/-- The identifiers visible inside the `catch (error)` block of
`ClockManager.clockIn` and `clockOut`: the method parameters, the caught
error binding, and `this`.  `clockData` is declared with `const` inside the
`try` block, so it is scoped to that block and is NOT visible here. -/
def clockCatchScope : List String := ["employeeName", "options", "error", "this"]

/-- Strict-mode name resolution inside the catch block: reading an identifier
that is not in scope throws a `ReferenceError`. -/
def resolveInClockCatch (name : String) : Except JsError Unit :=
  if clockCatchScope.contains name then .ok () else .error (.referenceError name)

/-- The offline branch of the catch block of `ClockManager.clockIn`:
`await this.storeOfflineAction('clockin', clockData)` first evaluates the
argument `clockData`, then (were that to succeed) stores the action and
returns the queued soft success.  The second component records whether an
action was stored in the `pendingActions` store. -/
def clockInOfflineCatch : Except JsError (ClockResult × Bool) := do
  let _ ← resolveInClockCatch "clockData"
  .ok ({ success := true, message := "บันทึกลงเวลาเข้าไว้ จะส่งเมื่อออนไลน์", offline := true }, true)

/-- The offline branch of the catch block of `ClockManager.clockOut`,
analogous to `clockInOfflineCatch`. -/
def clockOutOfflineCatch : Except JsError (ClockResult × Bool) := do
  let _ ← resolveInClockCatch "clockData"
  .ok ({ success := true, message := "บันทึกลงเวลาออกไว้ จะส่งเมื่อออนไลน์", offline := true }, true)

/-- `ClockManager.clockIn` from `mobile-core.js`.  `callResult` is the outcome
of `await this.api.call('/clockin', ...)`; `onLine` is `navigator.onLine` as
observed in the catch block.  The Bool in the result records whether an
offline action was stored. -/
def ClockManager.clockIn (callResult : Except JsError ApiCallResponse)
    (onLine : Bool) : Except JsError (ClockResult × Bool) :=
  match callResult with
  | .ok r =>
    if r.success then
      .ok ({ success := true, message := "ลงเวลาเข้า " ++ r.time ++ " เรียบร้อย", offline := false }, false)
    else
      .ok ({ success := false, message := r.msg, offline := false }, false)
  | .error _ =>
    if !onLine then clockInOfflineCatch
    else .ok ({ success := false, message := "เกิดข้อผิดพลาดในการลงเวลาเข้า", offline := false }, false)

/-- `ClockManager.clockOut` from `mobile-core.js`, analogous to
`ClockManager.clockIn`. -/
def ClockManager.clockOut (callResult : Except JsError ApiCallResponse)
    (onLine : Bool) : Except JsError (ClockResult × Bool) :=
  match callResult with
  | .ok r =>
    if r.success then
      .ok ({ success := true, message := "ลงเวลาออก " ++ r.time ++ " เรียบร้อย", offline := false }, false)
    else
      .ok ({ success := false, message := r.msg, offline := false }, false)
  | .error _ =>
    if !onLine then clockOutOfflineCatch
    else .ok ({ success := false, message := "เกิดข้อผิดพลาดในการลงเวลาออก", offline := false }, false)

/-! ### Legacy offline queue (`public/js/main.js`) -/

/-- One record of the `offline_actions` array in `localStorage`: action type
(`"clockin"` or `"clockout"`), payload, and a locally generated id. -/
structure OfflineAction where
  id : Nat
  type : String
  data : Json

/-- The `localStorage`-backed state read and written by `storeOfflineAction`
and `syncOfflineActions`. -/
structure LocalStore where
  offlineActions : List OfflineAction

/-- The synchronous prefix of `syncOfflineActions` in `main.js`: return early
when offline or when the stored array is empty, otherwise snapshot the whole
`offline_actions` array and fire a replay for every entry.  The returned list
is the list of actions this invocation replays; no in-progress flag of any
kind is consulted, and nothing is removed from `localStorage` until the
`Promise.allSettled` callback runs. -/
def syncOfflineActionsStart (onLine : Bool) (ls : LocalStore) : List OfflineAction :=
  if !onLine then []
  else if ls.offlineActions.isEmpty then []
  else ls.offlineActions

/-- The `Promise.allSettled` completion callback of `syncOfflineActions`:
remove from the stored array exactly the actions whose replay fulfilled. -/
def syncOfflineActionsComplete (ls : LocalStore) (syncedIds : List Nat) : LocalStore :=
  { offlineActions := ls.offlineActions.filter (fun a => !(syncedIds.contains a.id)) }

/-! ### App-level drain (`public/js/mobile-app.js`, `syncOfflineData`) -/

/-- The replay outcome of one pending action inside `syncOfflineData`, as
classified by the `result?.success && !result?.offline` test: removed only in
the `success` case; `softOffline` is a soft success carrying `offline: true`;
`notSuccess` is a returned failure; `threw` is caught by the per-action
handler. -/
inductive AppReplayOutcome where
  | success
  | softOffline
  | notSuccess
  | threw
deriving DecidableEq, Repr

/-- Is the action removed from the store (`result?.success && !result?.offline`)? -/
def AppReplayOutcome.removes : AppReplayOutcome → Bool
  | .success => true
  | _ => false

/-- The state of `MobileTimeTrackerApp` relevant to `syncOfflineData`,
together with the durable `pendingActions` store. -/
structure AppSyncState where
  syncInProgress : Bool
  isOnline : Bool
  pendingActions : List OfflineAction

/-- `MobileTimeTrackerApp.syncOfflineData`.  An invocation observes state `s`;
`dbOpened` is whether `openIndexedDB` (and the `getAll`) succeeded, and
`replay` gives each action's replay outcome.  Returns the state at the time
the invocation settles and the ids it replayed, in order:

* guard: if a pass is in progress or the app is offline, return immediately —
  the invocation is a no-op (nothing is replayed, nothing is queued);
* otherwise the flag is set, the store is read (an open failure lands in the
  outer catch), each action is replayed with the per-action `try` keeping the
  loop going, successful non-offline replays are removed, and the `finally`
  clears the flag on every path. -/
def syncOfflineData (s : AppSyncState) (dbOpened : Bool)
    (replay : OfflineAction → AppReplayOutcome) : AppSyncState × List Nat :=
  if s.syncInProgress || !s.isOnline then (s, [])
  else if !dbOpened then
    ({ s with syncInProgress := false }, [])
  else if s.pendingActions.isEmpty then
    ({ s with syncInProgress := false }, [])
  else
    ({ s with
        syncInProgress := false
        pendingActions := s.pendingActions.filter (fun a => !(replay a).removes) },
      s.pendingActions.map (·.id))

/-! ### Mobile API client in-memory cache (`MobileAPIClient`) -/

/-- One entry of `MobileAPIClient.cache`: the cached data and its absolute
expiry time (`Date.now() + ttl` at store time). -/
structure MCacheEntry where
  data : Json
  expires : Nat

/-- The `Map` underlying `MobileAPIClient.cache`, as an association list whose
first binding for a key is the current one. -/
def MCache := List (String × MCacheEntry)

/-- JS `Map.get`. -/
def mcacheGet (c : MCache) (k : String) : Option MCacheEntry :=
  (c.find? (fun p => p.1 == k)).map (·.2)

/-- JS `Map.set`: replace any existing binding of `k`. -/
def mcacheSet (c : MCache) (k : String) (e : MCacheEntry) : MCache :=
  (k, e) :: c.filter (fun p => p.1 ≠ k)

/-- JS `Map.delete`. -/
def mcacheDelete (c : MCache) (k : String) : MCache :=
  c.filter (fun p => p.1 ≠ k)

/-- `MobileAPIClient.setCache`: store `data` under `key` with expiry
`now + ttl` (`now` stands for `Date.now()` at store time). -/
def setCache (c : MCache) (key : String) (data : Json) (now ttl : Nat) : MCache :=
  mcacheSet c key { data := data, expires := now + ttl }

/-- `MobileAPIClient.getFromCache`: a missing key returns `null`; an entry
with `Date.now() > expires` is deleted and `null` is returned; otherwise the
stored data is returned.  The second component is the cache as left behind. -/
def getFromCache (c : MCache) (key : String) (now : Nat) : Option Json × MCache :=
  match mcacheGet c key with
  | none => (none, c)
  | some e =>
    if now > e.expires then (none, mcacheDelete c key)
    else (some e.data, c)

/-! ### Cache keys (`MobileAPIClient.call` and `optimizedAjax`) -/

/-- The cache key built by `MobileAPIClient.call`:
`endpoint + ":" + JSON.stringify(options.body || {})`.  `bodyJson` is the
serialized body (the body as it is sent on the wire); a request without a
body serializes the empty object, "\x7b\x7d". -/
def callCacheKey (endpoint bodyJson : String) : String :=
  endpoint ++ ":" ++ bodyJson

/-- The cache key built by `optimizedAjax` in `main.js`:
`(options.method || 'GET') + ":" + options.url + ":" + JSON.stringify(options.data || {})`. -/
def ajaxCacheKey (method url dataJson : String) : String :=
  method ++ ":" ++ url ++ ":" ++ dataJson

/-! ### Helper lemmas -/

/-- Closed form of the service-worker drain loop: every record is replayed,
in stored order, and exactly the records whose replay did not return a
success response remain. -/
theorem swDrainPass_spec (net : PendingRecord → ReplayResult) (queue : List PendingRecord) :
    swDrainPass net queue
      = (queue.filter (fun rec => !(net rec).succeeded), queue.map (·.id)) := by
  induction queue with
  | nil => rfl
  | cons rec rest ih =>
    simp only [swDrainPass, ih, List.filter_cons, List.map_cons]
    cases h : (net rec).succeeded <;> simp [h]

/-- Setting a header makes it readable back. -/
theorem headersGet_set_self (hs : List (String × String)) (k v : String) :
    headersGet (headersSet hs k v) k = some v := by
  simp [headersGet, headersSet]

/-- Dropping the bindings of a different name does not change a header lookup. -/
theorem find?_filter_ne (k k' : String) (h : k' ≠ k) (l : List (String × String)) :
    (l.filter (fun p => p.1 ≠ k)).find? (fun p => p.1 == k')
      = l.find? (fun p => p.1 == k') := by
  induction l with
  | nil => rfl
  | cons a rest ih =>
    by_cases ha : a.1 = k
    · have hcmp : (a.1 == k') = false := by
        simp only [beq_eq_false_iff_ne, ha]
        exact fun hkk => h hkk.symm
      rw [List.filter_cons_of_neg (by simpa using ha),
          List.find?_cons_of_neg rest (by simp [hcmp]), ih]
    · rw [List.filter_cons_of_pos (by simpa using ha)]
      cases hcmp : (a.1 == k') with
      | true =>
        rw [List.find?_cons_of_pos _ (by simp [hcmp]), List.find?_cons_of_pos _ (by simp [hcmp])]
      | false =>
        rw [List.find?_cons_of_neg _ (by simp [hcmp]),
            List.find?_cons_of_neg rest (by simp [hcmp]), ih]

/-- Setting a header leaves the other header names unchanged. -/
theorem headersGet_set_other (hs : List (String × String)) (k v k' : String)
    (h : k' ≠ k) :
    headersGet (headersSet hs k v) k' = headersGet hs k' := by
  have hk : (k == k') = false := by
    simp only [beq_eq_false_iff_ne]
    exact fun hkk => h hkk.symm
  simp only [headersGet, headersSet, List.find?_cons, hk, cond_false]
  rw [find?_filter_ne k k' h hs]

/-- Left cancellation for string concatenation. -/
theorem string_append_cancel_left (s a b : String) (h : s ++ a = s ++ b) : a = b := by
  cases a; cases b; cases s
  simp only [String.instAppend, String.append] at h
  injection h with h
  exact congrArg String.mk (List.append_cancel_left h)

/-! ### Claim C1 -/

/-- Claim C1 (code bug): a clock-in or clock-out whose network call throws
while `navigator.onLine` is false does NOT store the payload and does NOT
return the queued soft success.  The catch block of `ClockManager.clockIn` /
`clockOut` evaluates `this.storeOfflineAction(..., clockData)`, but
`clockData` is a `const` scoped to the `try` block, so the name lookup throws
a `ReferenceError` and the whole call rejects with it — a hard failure, with
nothing enqueued. -/
theorem clockInOut_offline_throws_referenceError :
    ClockManager.clockIn (.error (.connectionError "การเชื่อมต่อล้มเหลว: timeout")) false
      = .error (.referenceError "clockData")
    ∧ ClockManager.clockOut (.error (.connectionError "การเชื่อมต่อล้มเหลว: timeout")) false
      = .error (.referenceError "clockData") := by
  exact ⟨rfl, rfl⟩

/-! ### Claim C2 -/

/-- Claim C2 (confirmed): within a single drain pass of `syncClockInData` or
`syncClockOutData`, the queued records are replayed in FIFO stored order
(every stored id appears in the replay trace, in order, so one failed entry
never stops the pass), and a record is deleted from the store exactly when
its replay returned a success (`response.ok`) response. -/
theorem swDrain_fifo_and_exact_deletion (net : PendingRecord → ReplayResult)
    (queue : List PendingRecord) :
    (syncClockInData net queue).2 = queue.map (·.id)
    ∧ (syncClockInData net queue).1 = queue.filter (fun rec => !(net rec).succeeded)
    ∧ (syncClockOutData net queue).2 = queue.map (·.id)
    ∧ (syncClockOutData net queue).1 = queue.filter (fun rec => !(net rec).succeeded) := by
  unfold syncClockInData syncClockOutData
  rw [swDrainPass_spec]
  exact ⟨rfl, rfl, rfl, rfl⟩

/-! ### Claim C3 -/

/-- Claim C3 counterexample: the legacy drain `syncOfflineActions` in
`main.js` consults no in-progress flag.  With one queued action and the first
pass's replays still in flight (nothing has been removed from `localStorage`
until the `Promise.allSettled` callback runs), a second trigger snapshots the
same store and starts another full pass replaying the same action — it is not
a no-op, so two drain passes are in flight at once. -/
theorem syncOfflineActions_double_drain_cex :
    (syncOfflineActionsStart true ⟨[⟨1, "clockin", Json.null⟩]⟩).map (·.id) = [1]
    ∧ (syncOfflineActionsStart true ⟨[⟨1, "clockin", Json.null⟩]⟩).map (·.id) ≠ []
    ∧ ((syncOfflineActionsStart true ⟨[⟨1, "clockin", Json.null⟩]⟩)
        ++ syncOfflineActionsStart true ⟨[⟨1, "clockin", Json.null⟩]⟩).map (·.id)
        = [1, 1] := by
  refine ⟨rfl, by decide, rfl⟩

/-- Claim C3 amended: the app-level drain `syncOfflineData` is guarded by the
boolean `syncInProgress` flag — a trigger that arrives while a pass is
running settles immediately with the state unchanged and zero replays, and
nothing is queued for later; but the legacy drain `syncOfflineActions` has no
re-entry guard, and a trigger arriving while a pass is in flight (the store
still holding every queued action) starts a second full pass over the same
entries. -/
theorem drain_reentry_guard_amended :
    (∀ (s : AppSyncState) (dbOpened : Bool) (replay : OfflineAction → AppReplayOutcome),
        s.syncInProgress = true → syncOfflineData s dbOpened replay = (s, []))
    ∧ (∀ (onLine : Bool) (ls : LocalStore), onLine = true → ls.offlineActions ≠ [] →
        syncOfflineActionsStart onLine ls = ls.offlineActions) := by
  constructor
  · intro s dbOpened replay h
    unfold syncOfflineData
    simp [h]
  · intro onLine ls h hne
    unfold syncOfflineActionsStart
    simp [h, List.isEmpty_eq_true, hne]

/-- Claim C3 amended, witness: a trigger with the flag set is a no-op, and an
unguarded legacy trigger on a nonempty in-flight store replays the whole
store again. -/
theorem drain_reentry_guard_amended_witness :
    syncOfflineData ⟨true, true, [⟨1, "clockin", Json.null⟩]⟩ true (fun _ => .success)
      = (⟨true, true, [⟨1, "clockin", Json.null⟩]⟩, [])
    ∧ syncOfflineActionsStart true ⟨[⟨2, "clockout", Json.null⟩]⟩
      = [⟨2, "clockout", Json.null⟩] := by
  exact ⟨drain_reentry_guard_amended.1 ⟨true, true, [⟨1, "clockin", Json.null⟩]⟩ true
           (fun _ => .success) rfl,
         drain_reentry_guard_amended.2 true ⟨[⟨2, "clockout", Json.null⟩]⟩ rfl (by simp)⟩

/-! ### Claim C4 -/

/-- Claim C4 counterexample: for the configuration-identifier endpoint
`/api/getLiffId` — one of the synthesizer's known set — the synthesized body
carries NO `offline: true` marker at all (and its `success` flag is `true`,
not a failure envelope): the claimed "explicit offline: true marker for each
endpoint in the known set" fails on this endpoint. -/
theorem offlineSynth_getLiffId_no_marker_cex :
    (createOfflineAPIResponse "12/10/2569" "/api/getLiffId").status = 200
    ∧ (createOfflineAPIResponse "12/10/2569" "/api/getLiffId").body.boolField "offline" = none
    ∧ (createOfflineAPIResponse "12/10/2569" "/api/getLiffId").body.boolField "success" = some true
    ∧ (createOfflineAPIResponse "12/10/2569" "/api/getLiffId").body.strField "liffId"
        = some OFFLINE_LIFF_ID := by
  refine ⟨rfl, by decide, by decide, by decide⟩

/-- Claim C4 amended: every synthesized response has transport status 200;
the employee-roster and dashboard bodies carry `offline: true`, a failing
`success` flag, the no-connectivity message and safe empty/zero defaults; the
configuration-identifier body instead reports `success: true` with a
hardcoded default LIFF id and no offline marker; any other endpoint gets the
generic failure envelope (failure flag plus no-connectivity message). -/
theorem offlineSynth_amended (todayStr pathname : String) :
    ((createOfflineAPIResponse todayStr pathname).status = 200
      ∧ headersGet (createOfflineAPIResponse todayStr pathname).headers "X-Served-By"
          = some "ServiceWorker-Offline")
    ∧ (strIncludes pathname "/employees" = true →
        (createOfflineAPIResponse todayStr pathname).body.boolField "offline" = some true
        ∧ (createOfflineAPIResponse todayStr pathname).body.boolField "success" = some false
        ∧ (createOfflineAPIResponse todayStr pathname).body.arrField "employees" = some []
        ∧ (createOfflineAPIResponse todayStr pathname).body.strField "msg" = some NO_NET_MSG)
    ∧ (strIncludes pathname "/employees" = false → strIncludes pathname "/dashboard" = true →
        (createOfflineAPIResponse todayStr pathname).body.boolField "offline" = some true
        ∧ (createOfflineAPIResponse todayStr pathname).body.boolField "success" = some false
        ∧ (createOfflineAPIResponse todayStr pathname).body.field "today"
            = some (.obj [("total_employees", .num 0), ("checked_in", .num 0),
                          ("not_checked_out", .num 0), ("date", .str todayStr)]))
    ∧ (strIncludes pathname "/employees" = false → strIncludes pathname "/dashboard" = false →
        strIncludes pathname "/getLiffId" = true →
        (createOfflineAPIResponse todayStr pathname).body.boolField "success" = some true
        ∧ (createOfflineAPIResponse todayStr pathname).body.strField "liffId" = some OFFLINE_LIFF_ID
        ∧ (createOfflineAPIResponse todayStr pathname).body.boolField "offline" = none)
    ∧ (strIncludes pathname "/employees" = false → strIncludes pathname "/dashboard" = false →
        strIncludes pathname "/getLiffId" = false →
        (createOfflineAPIResponse todayStr pathname).body.boolField "success" = some false
        ∧ (createOfflineAPIResponse todayStr pathname).body.strField "msg" = some NO_NET_MSG
        ∧ (createOfflineAPIResponse todayStr pathname).body.boolField "offline" = none) := by
  refine ⟨?_, ?_, ?_, ?_, ?_⟩
  · unfold createOfflineAPIResponse
    split <;> exact ⟨rfl, rfl⟩
  · intro h1
    simp only [createOfflineAPIResponse, h1, if_true]
    exact ⟨rfl, rfl, rfl, rfl⟩
  · intro h1 h2
    simp only [createOfflineAPIResponse, h1, h2, Bool.false_eq_true, if_false, if_true]
    exact ⟨rfl, rfl, rfl⟩
  · intro h1 h2 h3
    simp only [createOfflineAPIResponse, h1, h2, h3, Bool.false_eq_true, if_false, if_true]
    exact ⟨rfl, rfl, rfl⟩
  · intro h1 h2 h3
    simp only [createOfflineAPIResponse, h1, h2, h3, Bool.false_eq_true, if_false]
    exact ⟨rfl, rfl, rfl⟩

/-- Claim C4 amended, witness: the four branches evaluated on the roster,
dashboard, configuration-identifier and an unknown endpoint. -/
theorem offlineSynth_amended_witness :
    (createOfflineAPIResponse "x" "/api/mobile/employees").body.boolField "offline" = some true
    ∧ (createOfflineAPIResponse "x" "/api/mobile/dashboard").body.boolField "offline" = some true
    ∧ (createOfflineAPIResponse "x" "/api/getLiffId").body.boolField "success" = some true
    ∧ (createOfflineAPIResponse "x" "/api/getTimeOffset").body.strField "msg" = some NO_NET_MSG := by
  refine ⟨((offlineSynth_amended "x" "/api/mobile/employees").2.1 (by decide)).1,
          ((offlineSynth_amended "x" "/api/mobile/dashboard").2.2.1 (by decide) (by decide)).1,
          ((offlineSynth_amended "x" "/api/getLiffId").2.2.2.1 (by decide) (by decide) (by decide)).1,
          ((offlineSynth_amended "x" "/api/getTimeOffset").2.2.2.2 (by decide) (by decide) (by decide)).2.1⟩

/-! ### Claim C5 -/

/-- Claim C5 (confirmed): when the network attempt of
`networkFirstWithFallback` fails — a thrown transport error or a non-ok
status — and the API cache holds an entry for the request, the strategy
returns the cached response rebuilt with the two cache-served markers
(`X-Served-By: ServiceWorker` and `X-Cache-Date` carrying the cached `date`
header, `"unknown"` when absent), with body, status and status text taken
verbatim from the cache and nothing written to the cache; only when the
cache also misses does it return the synthesized offline response. -/
theorem networkFallback_cache_before_synth (todayStr pathname : String)
    (net : NetOutcome) (cached : Option SWResponse) (c : SWResponse)
    (hfail : netFailed net = true) :
    (cached = some c →
      (networkFirstWithFallback todayStr pathname net cached).1.body = c.body
      ∧ (networkFirstWithFallback todayStr pathname net cached).1.status = c.status
      ∧ (networkFirstWithFallback todayStr pathname net cached).1.statusText = c.statusText
      ∧ headersGet (networkFirstWithFallback todayStr pathname net cached).1.headers
          "X-Served-By" = some "ServiceWorker"
      ∧ headersGet (networkFirstWithFallback todayStr pathname net cached).1.headers
          "X-Cache-Date" = some ((headersGet c.headers "date").getD "unknown")
      ∧ (networkFirstWithFallback todayStr pathname net cached).2 = none)
    ∧ (cached = none →
      networkFirstWithFallback todayStr pathname net cached
        = (createOfflineAPIResponse todayStr pathname, none)) := by
  have hfb : networkFirstWithFallback todayStr pathname net cached
      = (apiFallback todayStr pathname cached, none) := by
    cases net with
    | netError => rfl
    | resp r =>
      simp only [netFailed, Bool.not_eq_true'] at hfail
      simp [networkFirstWithFallback, hfail]
  constructor
  · intro hc
    subst hc
    rw [hfb]
    refine ⟨rfl, rfl, rfl, ?_, ?_, rfl⟩
    · show headersGet (headersSet (headersSet c.headers "X-Served-By" "ServiceWorker")
        "X-Cache-Date" ((headersGet c.headers "date").getD "unknown")) "X-Served-By"
        = some "ServiceWorker"
      rw [headersGet_set_other _ _ _ _ (by decide), headersGet_set_self]
    · show headersGet (headersSet (headersSet c.headers "X-Served-By" "ServiceWorker")
        "X-Cache-Date" ((headersGet c.headers "date").getD "unknown")) "X-Cache-Date"
        = some ((headersGet c.headers "date").getD "unknown")
      rw [headersGet_set_self]
  · intro hc
    subst hc
    rw [hfb]
    rfl

/-- Claim C5 witness: a transport error with a cached dashboard entry returns
the cache-served response with both markers; with an empty cache it returns
the synthesized offline response. -/
theorem networkFallback_cache_before_synth_witness :
    (networkFirstWithFallback "x" "/api/mobile/dashboard" .netError
        (some ⟨200, "OK", [("date", "Mon")], Json.null⟩)).1.status = 200
    ∧ headersGet (networkFirstWithFallback "x" "/api/mobile/dashboard" .netError
        (some ⟨200, "OK", [("date", "Mon")], Json.null⟩)).1.headers "X-Served-By"
        = some "ServiceWorker"
    ∧ headersGet (networkFirstWithFallback "x" "/api/mobile/dashboard" .netError
        (some ⟨200, "OK", [("date", "Mon")], Json.null⟩)).1.headers "X-Cache-Date"
        = some "Mon"
    ∧ networkFirstWithFallback "x" "/api/mobile/dashboard" .netError none
        = (createOfflineAPIResponse "x" "/api/mobile/dashboard", none) := by
  have h := networkFallback_cache_before_synth "x" "/api/mobile/dashboard" .netError
    (some ⟨200, "OK", [("date", "Mon")], Json.null⟩) ⟨200, "OK", [("date", "Mon")], Json.null⟩ rfl
  have h2 := networkFallback_cache_before_synth "x" "/api/mobile/dashboard" .netError
    none ⟨200, "OK", [("date", "Mon")], Json.null⟩ rfl
  exact ⟨(h.1 rfl).2.1, (h.1 rfl).2.2.2.1, (h.1 rfl).2.2.2.2.1, h2.2 rfl⟩

/-! ### Claim C6 -/

/-- The code's static-resource test coincides with the spec's
static-suffix-or-root test: the code keeps `.html` and `/` outside its
extension list but adds them back by explicit disjuncts, while the spec's
fixed list includes markup. -/
theorem isStaticResource_eq_specStaticAsset (p : String) :
    isStaticResource p = specStaticAsset p := by
  simp only [isStaticResource, specStaticAsset, STATIC_EXTENSIONS,
    List.any_cons, List.any_nil]
  rw [Bool.eq_iff_iff]
  simp only [Bool.or_eq_true]
  tauto

/-- Claim C6 (confirmed): the classification implemented by the `fetch`
listener plus `handleRequest` is a pure function of (origin, method, path) —
it performs no cache or network operation — and coincides with the spec's
fixed-order rule: cross-origin and non-GET requests pass through untouched,
static-suffix or root paths get cache-first, `/api/` paths get
network-first-with-fallback, HTML documents get network-first, and anything
else goes directly to the network.  Being a function, repeated
classification of the same request yields the same strategy every time. -/
theorem request_classification_matches_spec (r : SWRequest) :
    fetchClassify r = specClassify r := by
  unfold fetchClassify specClassify handleRequestStrategy
  rw [isStaticResource_eq_specStaticAsset]

/-! ### Claim C7 -/

/-- Claim C7 (confirmed): under `cacheFirst`, a cache hit returns exactly the
cached response with no network call and no cache write; a cache miss always
hits the network, stores a clone exactly when the live response is ok, and
returns the live response; a thrown fetch error propagates unchanged. -/
theorem cacheFirst_hit_no_network_miss_fetches (cached : Option SWResponse)
    (net : Except Unit SWResponse) (c r : SWResponse) :
    (cached = some c →
      cacheFirst cached net
        = { resp := .ok c, networkCalled := false, cachePut := none })
    ∧ (cached = none → (cacheFirst cached net).networkCalled = true)
    ∧ (cached = none → net = .ok r →
      cacheFirst cached net
        = { resp := .ok r, networkCalled := true
            cachePut := if r.ok then some r else none })
    ∧ (cached = none → net = .error () →
      cacheFirst cached net
        = { resp := .error (), networkCalled := true, cachePut := none }) := by
  refine ⟨?_, ?_, ?_, ?_⟩
  · intro hc; subst hc; rfl
  · intro hc; subst hc; cases net <;> rfl
  · intro hc hn; subst hc; subst hn; rfl
  · intro hc hn; subst hc; subst hn; rfl

/-- Claim C7 witness: a concrete hit returns the cached response without
touching the network; a concrete ok miss fetches and caches. -/
theorem cacheFirst_hit_no_network_miss_fetches_witness :
    cacheFirst (some ⟨200, "OK", [], Json.null⟩) (.error ())
      = { resp := .ok ⟨200, "OK", [], Json.null⟩, networkCalled := false, cachePut := none }
    ∧ cacheFirst none (.ok ⟨200, "OK", [], Json.null⟩)
      = { resp := .ok ⟨200, "OK", [], Json.null⟩, networkCalled := true
          cachePut := some ⟨200, "OK", [], Json.null⟩ } := by
  have h1 := cacheFirst_hit_no_network_miss_fetches (some ⟨200, "OK", [], Json.null⟩)
    (.error ()) ⟨200, "OK", [], Json.null⟩ ⟨200, "OK", [], Json.null⟩
  have h2 := cacheFirst_hit_no_network_miss_fetches none
    (.ok ⟨200, "OK", [], Json.null⟩) ⟨200, "OK", [], Json.null⟩ ⟨200, "OK", [], Json.null⟩
  refine ⟨h1.1 rfl, ?_⟩
  rw [h2.2.2.1 rfl rfl]
  rfl

/-! ### Claim C8 -/

/-- Claim C8 (confirmed): both cache keys — `endpoint:body` in
`MobileAPIClient.call` and `method:url:body` in `optimizedAjax` — are pure
functions of the request's identifying components (the serialized body is
the body as sent on the wire): two reads with identical components always
map to the same key, and two reads on the same endpoint/path whose
serialized bodies differ map to distinct keys, so distinct logical reads
never collide. -/
theorem cacheKey_pure_and_body_injective :
    (∀ e b₁ b₂ : String, b₁ = b₂ → callCacheKey e b₁ = callCacheKey e b₂)
    ∧ (∀ e b₁ b₂ : String, b₁ ≠ b₂ → callCacheKey e b₁ ≠ callCacheKey e b₂)
    ∧ (∀ m u d₁ d₂ : String, d₁ = d₂ → ajaxCacheKey m u d₁ = ajaxCacheKey m u d₂)
    ∧ (∀ m u d₁ d₂ : String, d₁ ≠ d₂ → ajaxCacheKey m u d₁ ≠ ajaxCacheKey m u d₂) := by
  refine ⟨?_, ?_, ?_, ?_⟩
  · intro e b₁ b₂ h
    rw [h]
  · intro e b₁ b₂ h hk
    exact h (string_append_cancel_left (e ++ ":") b₁ b₂ hk)
  · intro m u d₁ d₂ h
    rw [h]
  · intro m u d₁ d₂ h hk
    exact h (string_append_cancel_left (m ++ ":" ++ u ++ ":") d₁ d₂ hk)

/-- Claim C8 witness: concrete identical reads share a key and a changed body
yields a different key, for both key constructions. -/
theorem cacheKey_pure_and_body_injective_witness :
    callCacheKey "/employees" "\x7b\x7d" = callCacheKey "/employees" "\x7b\x7d"
    ∧ callCacheKey "/employees" "\x7b\x7d" ≠ callCacheKey "/employees" "ab"
    ∧ ajaxCacheKey "POST" "/api/getdata" "\x7b\x7d" = ajaxCacheKey "POST" "/api/getdata" "\x7b\x7d"
    ∧ ajaxCacheKey "POST" "/api/getdata" "\x7b\x7d" ≠ ajaxCacheKey "POST" "/api/getdata" "ab" := by
  exact ⟨cacheKey_pure_and_body_injective.1 "/employees" "\x7b\x7d" "\x7b\x7d" rfl,
         cacheKey_pure_and_body_injective.2.1 "/employees" "\x7b\x7d" "ab" (by decide),
         cacheKey_pure_and_body_injective.2.2.1 "POST" "/api/getdata" "\x7b\x7d" "\x7b\x7d" rfl,
         cacheKey_pure_and_body_injective.2.2.2 "POST" "/api/getdata" "\x7b\x7d" "ab" (by decide)⟩

/-! ### Claim C9 -/

/-- Claim C9 counterexample: at the TTL boundary the client cache still
serves the entry.  Store at time 0 with a 30000 ms TTL and look up at time
30000: the lookup returns the stored value although the elapsed time is not
LESS than the TTL — the `Date.now() > expires` test keeps the entry alive at
elapsed time exactly equal to the TTL. -/
theorem mobileCache_ttl_boundary_cex :
    (getFromCache (setCache [] "k" Json.null 0 30000) "k" 30000).1 = some Json.null
    ∧ ¬ (30000 - 0 < 30000) := by
  exact ⟨rfl, by decide⟩

/-- Claim C9 amended: a lookup on an entry stored at `t0` with time-to-live
`ttl` returns the stored value exactly when at most the TTL has elapsed
(`now ≤ t0 + ttl`); an entry looked up strictly after its expiry is deleted
at lookup time and the lookup returns null; and in general every observed
hit is on an entry whose expiry has not passed. -/
theorem mobileCache_ttl_amended (c : MCache) (k : String) (d : Json) (t0 ttl now : Nat) :
    ((getFromCache (setCache c k d t0 ttl) k now).1 = some d ↔ now ≤ t0 + ttl)
    ∧ (t0 + ttl < now →
        getFromCache (setCache c k d t0 ttl) k now
          = (none, mcacheDelete (setCache c k d t0 ttl) k))
    ∧ (∀ (c' : MCache) (x : Json), (getFromCache c' k now).1 = some x →
        ∃ e, mcacheGet c' k = some e ∧ e.data = x ∧ now ≤ e.expires) := by
  have hget : mcacheGet (setCache c k d t0 ttl) k = some ⟨d, t0 + ttl⟩ := by
    simp [mcacheGet, mcacheSet, setCache]
  refine ⟨?_, ?_, ?_⟩
  · constructor
    · intro hx
      simp only [getFromCache, hget] at hx
      by_cases h : now > t0 + ttl
      · rw [if_pos h] at hx
        exact absurd hx (by simp)
      · omega
    · intro hle
      simp only [getFromCache, hget]
      rw [if_neg (by omega)]
  · intro h
    simp only [getFromCache, hget]
    rw [if_pos h]
  · intro c' x hx
    simp only [getFromCache] at hx
    cases he : mcacheGet c' k with
    | none => rw [he] at hx; exact absurd hx (by simp)
    | some e =>
      rw [he] at hx
      simp only at hx
      by_cases h : now > e.expires
      · rw [if_pos h] at hx
        exact absurd hx (by simp)
      · rw [if_neg h] at hx
        simp only [Option.some.injEq] at hx
        exact ⟨e, rfl, hx, by omega⟩

/-- Claim C9 amended, witness: at the boundary the entry is served; one
millisecond later it is deleted and the lookup returns null. -/
theorem mobileCache_ttl_amended_witness :
    ((getFromCache (setCache [] "k" Json.null 0 30000) "k" 30000).1 = some Json.null
      ↔ (30000 : Nat) ≤ 0 + 30000)
    ∧ getFromCache (setCache [] "k" Json.null 0 30000) "k" 30001
      = (none, mcacheDelete (setCache [] "k" Json.null 0 30000) "k") := by
  exact ⟨(mobileCache_ttl_amended [] "k" Json.null 0 30000 30000).1,
         (mobileCache_ttl_amended [] "k" Json.null 0 30000 30001).2.1 (by decide)⟩

/-! ### Claim C10 -/

/-- Claim C10 (confirmed): an invocation of `syncOfflineData` entered with
the in-progress flag clear settles with the flag clear again on every path —
store-open failure, empty queue, and any combination of replay outcomes
(including thrown replays) — so a failed or aborted pass never leaves the
flag stuck; and an invocation that hits the re-entry guard leaves the state
untouched, so it never sets the flag either. -/
theorem syncOfflineData_always_clears_flag (s : AppSyncState) (dbOpened : Bool)
    (replay : OfflineAction → AppReplayOutcome)
    (h : s.syncInProgress = false) :
    (syncOfflineData s dbOpened replay).1.syncInProgress = false
    ∧ (s.isOnline = false → syncOfflineData s dbOpened replay = (s, [])) := by
  constructor
  · unfold syncOfflineData
    cases hon : s.isOnline with
    | false => simp [h, hon]
    | true =>
      cases dbOpened with
      | false => simp [h, hon]
      | true =>
        cases hemp : s.pendingActions.isEmpty with
        | false => simp [h, hon, hemp]
        | true => simp [h, hon, hemp]
  · intro hon
    unfold syncOfflineData
    simp [h, hon]

/-- Claim C10 witness: a pass whose only replays throw still settles with the
flag clear and the failed action retained. -/
theorem syncOfflineData_always_clears_flag_witness :
    (syncOfflineData ⟨false, true, [⟨1, "clockin", Json.null⟩]⟩ true (fun _ => .threw)).1.syncInProgress
      = false := by
  exact (syncOfflineData_always_clears_flag ⟨false, true, [⟨1, "clockin", Json.null⟩]⟩ true
    (fun _ => .threw) rfl).1
